import Mathlib

/-!
# FAQ bot: a shallow embedding of `server.mjs` and `ChatbotUI.js`

JavaScript values are embedded as the inductive type `JsVal` (the values a JSON
payload can hold, plus `undefined`).  Code that can throw returns
`Except JsError _`; an `await` of a rejected promise is the `error` branch.
A number is given by the text `Number.prototype.toString` prints for it: no
function of the program computes on numbers, it only prints them.
-/

namespace FaqBot

/-- JavaScript values reachable from JSON payloads, plus `undefined`. -/
inductive JsVal where
  | undefined : JsVal
  | null : JsVal
  | bool (b : Bool) : JsVal
  | num (text : String) : JsVal
  | str (s : String) : JsVal
  | arr (items : List JsVal) : JsVal
  | obj (fields : List (String × JsVal)) : JsVal

/-- Exceptions: the engine's `TypeError`, or an error raised by a collaborator
(HTTP client, splitter, embedding service, chain), carrying its message. -/
inductive JsError where
  | typeError : JsError
  | failure (message : String) : JsError
  deriving DecidableEq, Repr

namespace JsVal

/-- Own-property lookup in an object's field list. -/
def lookupField : List (String × JsVal) → String → JsVal
  | [], _ => .undefined
  | (k, v) :: rest, key => if k = key then v else lookupField rest key

/-- Member access `v.key` for a key that is not defined on a built-in prototype
(every key the program reads is of this kind): a `TypeError` on `undefined`
and `null`, the own property on an object, `undefined` on anything else. -/
def getProp (v : JsVal) (key : String) : Except JsError JsVal :=
  match v with
  | .undefined => .error .typeError
  | .null => .error .typeError
  | .obj fields => .ok (lookupField fields key)
  | _ => .ok .undefined

/-- Indexed access `v[i]`: a `TypeError` on `undefined` and `null`, the element
of an array, the one-character string of a string, the property named by the
index on an object, `undefined` when there is none. -/
def getIndex (v : JsVal) (i : Nat) : Except JsError JsVal :=
  match v with
  | .undefined => .error .typeError
  | .null => .error .typeError
  | .arr items => .ok ((items.get? i).getD .undefined)
  | .str s => .ok (match s.toList.get? i with
      | some c => .str (String.singleton c)
      | none => .undefined)
  | .obj fields => .ok (lookupField fields (toString i))
  | _ => .ok .undefined

/-- The receiver of `v.map(f)`: the elements when `v` is an array; any other
value has no callable `map` and the call throws a `TypeError`. -/
def mapReceiver (v : JsVal) : Except JsError (List JsVal) :=
  match v with
  | .arr items => .ok items
  | _ => .error .typeError

end JsVal

open JsVal

/-! ## FAQ source adapter (`server.mjs`, lines 33-51) -/

/-- What the network gives to `axios.get`: no reply at all, or a reply with a
status code and a parsed body. -/
inductive NetOutcome where
  | networkFailure (message : String) : NetOutcome
  | reply (status : Nat) (data : JsVal) : NetOutcome

/-- The response object of the HTTP client. -/
structure AxiosResponse where
  status : Nat
  data : JsVal

/-- The HTTP client `axios.get` with its default status validation: it resolves
for a 2xx reply and rejects for a network failure or any other status. -/
def axiosGet (net : NetOutcome) : Except JsError AxiosResponse :=
  match net with
  | .networkFailure message => .error (.failure message)
  | .reply status data =>
    if 200 ≤ status ∧ status < 300 then .ok ⟨status, data⟩
    else .error (.failure ("Request failed with status code " ++ toString status))

/-- The function `fetchData`: the body of the reply, or the empty array when the call threw. -/
def fetchData (net : NetOutcome) : JsVal :=
  match axiosGet net with
  | .ok response => response.data
  | .error _ => .arr []

/-- A normalised FAQ entry, the object `{ question, answer }`. -/
structure FaqEntry where
  question : JsVal
  answer : JsVal

/-- The callback of `extractQuestionsAndAnswers` on one record. -/
def extractItem (item : JsVal) : Except JsError FaqEntry := do
  let attributes ← getProp item "attributes"
  let question ← getProp attributes "Question"
  let attributes2 ← getProp item "attributes"
  let answerBlocks ← getProp attributes2 "Answer"
  let block ← getIndex answerBlocks 0
  let children ← getProp block "children"
  let child ← getIndex children 0
  let text ← getProp child "text"
  pure { question := question, answer := text }

/-- The function `extractQuestionsAndAnswers`: `data.data.map(item => ...)`. -/
def extractQuestionsAndAnswers (data : JsVal) : Except JsError (List FaqEntry) := do
  let records ← getProp data "data"
  let items ← mapReceiver records
  items.mapM extractItem

/-- The source adapter as `populateVectorStore` composes it (lines 55-56). -/
def sourceAdapter (net : NetOutcome) : Except JsError (List FaqEntry) :=
  extractQuestionsAndAnswers (fetchData net)

/-! ## Corpus documents and index build (`server.mjs`, lines 53-73) -/

mutual
/-- String conversion of a value, as a template literal performs it. For an
object it gives the text of `Object.prototype.toString`; an object with an own
`toString` property, on which the conversion throws, is outside this model. -/
def JsVal.toJsString : JsVal → String
  | .undefined => "undefined"
  | .null => "null"
  | .bool b => if b then "true" else "false"
  | .num text => text
  | .str s => s
  | .arr items => JsVal.joinItems items
  | .obj _ => "[object Object]"
/-- The comma-separated rendering of array elements (`Array.prototype.join`):
`undefined` and `null` elements render as the empty string. -/
def JsVal.joinItems : List JsVal → String
  | [] => ""
  | x :: rest =>
    (match x with
      | .undefined => ""
      | .null => ""
      | .bool b => if b then "true" else "false"
      | .num text => text
      | .str s => s
      | .arr items => JsVal.joinItems items
      | .obj _ => "[object Object]") ++
    (match rest with
      | [] => ""
      | y :: more => "," ++ JsVal.joinItems (y :: more))
end

/-- A LangChain `Document`. -/
structure Document where
  pageContent : String
  metadata : JsVal

/-- The callback of `questionsAndAnswers.map` (line 60): the document of one entry. -/
def entryDocument (entry : FaqEntry) : Document :=
  { pageContent := entry.question.toJsString ++ "\n" ++ entry.answer.toJsString,
    metadata := .obj [("question", entry.question)] }

/-- The documents built from the entries (lines 59-61). -/
def docs (questionsAndAnswers : List FaqEntry) : List Document :=
  questionsAndAnswers.map entryDocument

/-- Options given to `RecursiveCharacterTextSplitter`. -/
structure SplitterConfig where
  chunkSize : Nat
  chunkOverlap : Nat
  deriving DecidableEq, Repr

/-- The splitter options of line 64. -/
def splitter : SplitterConfig := { chunkSize := 100, chunkOverlap := 20 }

/-- The in-memory vector store: the chunks it was built from. -/
structure VectorStore where
  documents : List Document

/-- A chat message of the toolkit. -/
inductive Message where
  | system (content : JsVal) : Message
  | human (content : JsVal) : Message
  | ai (content : JsVal) : Message

/-- One element of `ChatPromptTemplate.fromMessages`. -/
inductive PromptPart where
  | placeholder (variableName : String) : PromptPart
  | message (role : String) (template : String) : PromptPart

/-- The rephrasing prompt (lines 85-92). -/
def retrieverPrompt : List PromptPart :=
  [ .placeholder "chat_history",
    .message "user" "\x7binput\x7d",
    .message "user" "Given the above conversation, generate a search query to look up in order to get information relevant to the conversation" ]

/-- The text of the system message of the answer prompt (lines 105-108). -/
def systemTemplate : String :=
  "You are a Strapi CMS FAQs assistant. Your knowledge is limited to the information I  provide in the context. \n       You will answer this question based solely on this information: \x7bcontext\x7d. Do not make up your own answer .\n       If the answer is not present in the information, you will respond \x27I don\x27t have that information.\n       If a question is outside the context of Strapi, you will respond \x27I can only help with Strapi related questions."

/-- The answer prompt (lines 102-112). -/
def prompt : List PromptPart :=
  [ .message "system" systemTemplate,
    .placeholder "chat_history",
    .message "user" "\x7binput\x7d" ]

/-- What `answerFromVectorStore` assembles into the retrieval chain. -/
structure ChainSpec where
  vectorstore : VectorStore
  k : Nat
  rephrasePrompt : List PromptPart
  combinePrompt : List PromptPart

/-- The collaborators of the server: the upstream FAQ API, the text splitter,
the embedding service behind `MemoryVectorStore.fromDocuments`, and the
retrieval chain run by `conversationChain.invoke`. Each may fail. -/
structure Env where
  upstream : NetOutcome
  splitDocuments : SplitterConfig → List Document → Except JsError (List Document)
  fromDocuments : List Document → Except JsError VectorStore
  invoke : ChainSpec → List Message → JsVal → Except JsError JsVal

/-- The function `populateVectorStore` (lines 54-73). -/
def populateVectorStore (env : Env) : Except JsError VectorStore := do
  let questionsAndAnswers ← sourceAdapter env.upstream
  let splitDocs ← env.splitDocuments splitter (docs questionsAndAnswers)
  env.fromDocuments splitDocs

/-- The function `answerFromVectorStore` (lines 76-137). -/
def answerFromVectorStore (env : Env) (chatHistory : List Message) (input : JsVal) :
    Except JsError JsVal := do
  let vectorstore ← populateVectorStore env
  env.invoke
    { vectorstore := vectorstore, k := 4, rephrasePrompt := retrieverPrompt,
      combinePrompt := prompt }
    chatHistory input

/-! ## Prompt formatting (the toolkit's `ChatPromptTemplate`, f-string templates) -/

/-- A node of a parsed f-string template. -/
inductive FNode where
  | literal (text : String) : FNode
  | variable (name : String) : FNode

/-- Scanner state of the f-string reader; accumulators hold characters in
reverse order. `afterOpen` and `afterClose` have read one brace at text level
and wait for the next character to tell an escape from a variable. -/
inductive ScanMode where
  | text (acc : List Char) : ScanMode
  | afterOpen (acc : List Char) : ScanMode
  | afterClose (acc : List Char) : ScanMode
  | variable (acc : List Char) : ScanMode

/-- The literal node of the characters read so far, if any. -/
def flushLiteral (acc : List Char) : List FNode :=
  match acc with
  | [] => []
  | _ => [.literal (String.mk acc.reverse)]

/-- The f-string reader: doubled braces are literal braces, `\x7bname\x7d` is a
variable, an unclosed or a single closing brace is an error. -/
def parseFStringAux : List Char → ScanMode → Except JsError (List FNode)
  | [], .text acc => .ok (flushLiteral acc)
  | [], .afterOpen _ => .error (.failure "Unclosed brace in template.")
  | [], .afterClose _ => .error (.failure "Single closing brace in template.")
  | [], .variable _ => .error (.failure "Unclosed brace in template.")
  | c :: rest, .text acc =>
    if c = '\x7b' then parseFStringAux rest (.afterOpen acc)
    else if c = '\x7d' then parseFStringAux rest (.afterClose acc)
    else parseFStringAux rest (.text (c :: acc))
  | c :: rest, .afterOpen acc =>
    if c = '\x7b' then
      (parseFStringAux rest (.text [])).map (fun nodes => flushLiteral acc ++ .literal "\x7b" :: nodes)
    else if c = '\x7d' then
      (parseFStringAux rest (.text [])).map (fun nodes => flushLiteral acc ++ .variable "" :: nodes)
    else
      (parseFStringAux rest (.variable [c])).map (fun nodes => flushLiteral acc ++ nodes)
  | c :: rest, .afterClose acc =>
    if c = '\x7d' then
      (parseFStringAux rest (.text [])).map (fun nodes => flushLiteral acc ++ .literal "\x7d" :: nodes)
    else .error (.failure "Single closing brace in template.")
  | c :: rest, .variable acc =>
    if c = '\x7d' then
      (parseFStringAux rest (.text [])).map (fun nodes => .variable (String.mk acc.reverse) :: nodes)
    else parseFStringAux rest (.variable (c :: acc))

/-- The function `parseFString` on a template string. -/
def parseFString (template : String) : Except JsError (List FNode) :=
  parseFStringAux template.toList (.text [])

/-- The function `interpolateFString`: literals are copied, a variable is replaced by the
string conversion of its value; a variable without a value is an error. -/
def interpolateFString (values : List (String × JsVal)) : List FNode → Except JsError String
  | [] => .ok ""
  | .literal text :: rest => (interpolateFString values rest).map (fun tail => text ++ tail)
  | .variable name :: rest =>
    match values.lookup name with
    | some v => (interpolateFString values rest).map (fun tail => v.toJsString ++ tail)
    | none => .error (.failure ("Missing value for input " ++ name))

/-- Rendering of one template string. -/
def renderTemplate (template : String) (values : List (String × JsVal)) : Except JsError String := do
  let nodes ← parseFString template
  interpolateFString values nodes

/-- The values a chat prompt is formatted with: template variables, and the
message lists that fill the placeholders. -/
structure PromptValues where
  inputs : List (String × JsVal)
  messages : List (String × List Message)

/-- The messages one prompt element contributes. -/
def formatPart (values : PromptValues) (part : PromptPart) : Except JsError (List Message) :=
  match part with
  | .placeholder variableName =>
    match values.messages.lookup variableName with
    | some history => .ok history
    | none => .error (.failure ("Missing value for input " ++ variableName))
  | .message role template =>
    match renderTemplate template values.inputs with
    | .error e => .error e
    | .ok content =>
      if role = "system" then .ok [.system (.str content)]
      else if role = "user" ∨ role = "human" then .ok [.human (.str content)]
      else if role = "ai" ∨ role = "assistant" then .ok [.ai (.str content)]
      else .error (.failure ("Unknown message role " ++ role))

/-- The method `ChatPromptTemplate.formatMessages`: the elements' messages, in order. -/
def formatMessages (values : PromptValues) : List PromptPart → Except JsError (List Message)
  | [] => .ok []
  | part :: rest =>
    match formatPart values part with
    | .error e => .error e
    | .ok first => (formatMessages values rest).map (fun tail => first ++ tail)

/-- The messages the answer prompt yields inside the stuff-documents chain for
a converted history, an input and the formatted context. -/
def answerPromptMessages (chatHistory : List Message) (input context : JsVal) :
    Except JsError (List Message) :=
  formatMessages
    { inputs := [("context", context), ("input", input)],
      messages := [("chat_history", chatHistory)] }
    prompt

/-! ## Chat endpoint (`server.mjs`, lines 139-154) -/

/-- An HTTP response sent with `res.json`. -/
structure Response where
  status : Nat
  body : JsVal

/-- The content stored by the toolkit's constructors `new HumanMessage(fields)`
and `new AIMessage(fields)`: a string is the content itself; any other value is
read as a fields object, so `undefined` and `null` throw a `TypeError` at the
first property read, a boolean or a number throws a `TypeError` when the
constructor sets a default property on it, and an object (an array has no
`content`) yields its `content` property. -/
def messageContent (fields : JsVal) : Except JsError JsVal :=
  match fields with
  | .str s => .ok (.str s)
  | .undefined => .error .typeError
  | .null => .error .typeError
  | .bool _ => .error .typeError
  | .num _ => .error .typeError
  | .arr _ => .ok .undefined
  | .obj fieldList => .ok (lookupField fieldList "content")

/-- The callback of `chatHistory.map` (lines 144-150). -/
def formatHistoryEntry (message : JsVal) : Except JsError Message := do
  let role ← getProp message "role"
  let isUser := match role with
    | .str r => decide (r = "user")
    | _ => false
  if isUser then
    let content ← getProp message "content"
    let stored ← messageContent content
    pure (.human stored)
  else
    let content ← getProp message "content"
    let stored ← messageContent content
    pure (.ai stored)

/-- The conversion `formattedChatHistory`: `chatHistory.map(...)`. -/
def formattedChatHistory (chatHistory : JsVal) : Except JsError (List Message) := do
  let items ← mapReceiver chatHistory
  items.mapM formatHistoryEntry

/-- What a run of the `/chat` handler does: the arguments `answerFromVectorStore`
was called with, if it was called, and then either the response sent or the
exception with which the handler's promise rejects (the handler has then
not called `res.json`). -/
structure HandlerOutcome where
  pipelineCall : Option (List Message × JsVal)
  result : Except JsError Response

/-- The reads of the request body that precede the pipeline (lines 141-150). -/
def readBody (body : JsVal) : Except JsError (List Message × JsVal) := do
  let chatHistory ← getProp body "chatHistory"
  let input ← getProp body "input"
  let formatted ← formattedChatHistory chatHistory
  pure (formatted, input)

/-- The handler of `POST /chat`. -/
def chatHandler (env : Env) (body : JsVal) : HandlerOutcome :=
  match readBody body with
  | .error e => { pipelineCall := none, result := .error e }
  | .ok (formatted, input) =>
    { pipelineCall := some (formatted, input),
      result := (answerFromVectorStore env formatted input).map
        (fun response => { status := 200, body := response }) }

/-! ## Chat widget (`ChatbotUI.js`) -/

/-- A conversation entry held by the widget. -/
structure ChatMessage where
  role : String
  content : JsVal

/-- The body the widget posts to `/chat`. -/
structure ChatRequest where
  chatHistory : List ChatMessage
  input : String

/-- The widget's state: the five `useState` cells, and for each send still
awaiting its reply the `updatedChatHistory` its continuation has captured. -/
structure WidgetState where
  chatHistory : List ChatMessage
  userInput : String
  isLoading : Bool
  error : Option String
  isExpanded : Bool
  inFlight : List (List ChatMessage)

/-- The state of the first render. -/
def initialState : WidgetState :=
  { chatHistory := [], userInput := "", isLoading := false, error := none,
    isExpanded := true, inFlight := [] }

/-- White space and line terminators, the characters `String.prototype.trim` strips. -/
def isJsWhiteSpace (c : Char) : Bool :=
  let n := c.toNat
  n = 0x09 || n = 0x0A || n = 0x0B || n = 0x0C || n = 0x0D || n = 0x20 || n = 0xA0
    || n = 0x1680 || (0x2000 ≤ n && n ≤ 0x200A) || n = 0x2028 || n = 0x2029
    || n = 0x202F || n = 0x205F || n = 0x3000 || n = 0xFEFF

/-- The method `String.prototype.trim`. -/
def jsTrim (s : String) : String :=
  String.mk ((s.toList.dropWhile isJsWhiteSpace).reverse.dropWhile isJsWhiteSpace).reverse

/-- The handler `handleUserInput`. -/
def handleUserInput (s : WidgetState) (value : String) : WidgetState :=
  { s with userInput := value }

/-- The handler `toggleChatWindow`. -/
def toggleChatWindow (s : WidgetState) : WidgetState :=
  { s with isExpanded := !s.isExpanded }

/-- The handler `handleSendMessage` up to its `await` (lines 25-36): the state after the
three setters, and the requests posted. -/
def handleSendMessage (s : WidgetState) : WidgetState × List ChatRequest :=
  if jsTrim s.userInput ≠ "" then
    let newMessage : ChatMessage := { role := "user", content := .str s.userInput }
    let updatedChatHistory := s.chatHistory ++ [newMessage]
    ({ s with chatHistory := updatedChatHistory, userInput := "", isLoading := true,
              inFlight := s.inFlight ++ [updatedChatHistory] },
     [{ chatHistory := updatedChatHistory, input := s.userInput }])
  else (s, [])

/-- The continuation of `handleSendMessage` after the `await` (lines 37-47):
`reply` is the rejection of `axios.post` or the `data` of its response. -/
def sendSettled (s : WidgetState) (updatedChatHistory : List ChatMessage)
    (reply : Except JsError JsVal) : WidgetState :=
  match reply >>= fun data => getProp data "answer" with
  | .ok answer =>
    let botMessage : ChatMessage := { role := "assistant", content := answer }
    { s with chatHistory := updatedChatHistory ++ [botMessage], isLoading := false }
  | .error _ =>
    { s with error := some "Error sending message. Please try again later.",
             isLoading := false }

/-- The events that drive the widget. -/
inductive WidgetEvent where
  | userInput (value : String) : WidgetEvent
  | toggle : WidgetEvent
  | send : WidgetEvent
  | settle (index : Nat) (reply : Except JsError JsVal) : WidgetEvent

/-- One transition of the widget. -/
def step (s : WidgetState) (e : WidgetEvent) : WidgetState :=
  match e with
  | .userInput value => handleUserInput s value
  | .toggle => toggleChatWindow s
  | .send => (handleSendMessage s).1
  | .settle index reply =>
    match s.inFlight.get? index with
    | none => s
    | some updatedChatHistory =>
      sendSettled { s with inFlight := s.inFlight.eraseIdx index } updatedChatHistory reply

/-- The state after a sequence of events. -/
def run (s : WidgetState) (events : List WidgetEvent) : WidgetState :=
  events.foldl step s

/-! ## The two halves of the system template, and sample inputs -/

/-- The system template up to its `context` variable. -/
def systemTemplateHead : String :=
  "You are a Strapi CMS FAQs assistant. Your knowledge is limited to the information I  provide in the context. \n       You will answer this question based solely on this information: "

/-- The system template after its `context` variable. -/
def systemTemplateTail : String :=
  ". Do not make up your own answer .\n       If the answer is not present in the information, you will respond \x27I don\x27t have that information.\n       If a question is outside the context of Strapi, you will respond \x27I can only help with Strapi related questions."

/-- A record of the FAQ API: one question, answered by two blocks. -/
def sampleRecord : JsVal :=
  .obj [("id", .num "1"),
        ("attributes", .obj [
          ("Question", .str "What is Strapi?"),
          ("Answer", .arr [
            .obj [("type", .str "paragraph"),
                  ("children", .arr [.obj [("type", .str "text"), ("text", .str "A headless CMS.")],
                                     .obj [("type", .str "text"), ("text", .str " It is open source.")]])],
            .obj [("type", .str "paragraph"),
                  ("children", .arr [.obj [("type", .str "text"), ("text", .str "Built on Node.")]])]])])]

/-- A payload whose single record has a question and a non-empty answer whose
first block has a non-empty `children` list, the first child being `null`. -/
def nullChildPayload : JsVal :=
  .obj [("data", .arr [
    .obj [("attributes", .obj [
      ("Question", .str "What is Strapi?"),
      ("Answer", .arr [.obj [("children", .arr [.null])]])])]])]

/-- A payload of the FAQ API holding that one record. -/
def samplePayload : JsVal :=
  .obj [("data", .arr [sampleRecord])]

/-- Collaborators that all succeed: the FAQ API replies 200 with `samplePayload`,
the splitter returns the documents as they are, the index keeps them, and the
chain answers with a fixed object. -/
def workingEnv : Env :=
  { upstream := .reply 200 samplePayload,
    splitDocuments := fun _ documents => .ok documents,
    fromDocuments := fun documents => .ok { documents := documents },
    invoke := fun _ _ _ => .ok (.obj [("answer", .str "A headless CMS.")]) }

/-- As `workingEnv`, with the FAQ API unreachable. -/
def sourceDownEnv : Env :=
  { workingEnv with upstream := .networkFailure "ECONNREFUSED" }

/-- As `workingEnv`, with the embedding service failing. -/
def embeddingDownEnv : Env :=
  { workingEnv with fromDocuments := fun _ => .error (.failure "embedding service unavailable") }

/-- As `workingEnv`, with the language model failing inside the chain. -/
def completionDownEnv : Env :=
  { workingEnv with invoke := fun _ _ _ => .error (.failure "completion service unavailable") }

/-- A well-formed request body with a one-turn history. -/
def sampleBody : JsVal :=
  .obj [("chatHistory", .arr [.obj [("role", .str "user"), ("content", .str "What is Strapi?")]]),
        ("input", .str "What is Strapi?")]

/-- A widget state in which an earlier send has failed and a new message is typed. -/
def stateAfterFailure : WidgetState :=
  { chatHistory := [{ role := "user", content := .str "hello" }],
    userInput := "What is Strapi?", isLoading := false,
    error := some "Error sending message. Please try again later.",
    isExpanded := true, inFlight := [] }

/-! ## Lemmas on `mapM` in the exception monad -/

theorem mapM_except_cons {α β ε : Type} (f : α → Except ε β) (x : α) (xs : List α) :
    (x :: xs).mapM f =
      (match f x with
        | .error e => .error e
        | .ok y =>
          match xs.mapM f with
          | .error e => .error e
          | .ok ys => .ok (y :: ys)) := by
  rw [List.mapM_cons]
  cases f x with
  | error e => rfl
  | ok y =>
    cases xs.mapM f with
    | error e => rfl
    | ok ys => rfl

theorem mapM_except_total {α β ε : Type} (f : α → Except ε β) :
    ∀ xs : List α, (∀ x ∈ xs, ∃ y, f x = .ok y) → ∃ ys, xs.mapM f = .ok ys
  | [], _ => ⟨[], rfl⟩
  | x :: xs, h => by
    obtain ⟨y, hy⟩ := h x (List.mem_cons_self x xs)
    obtain ⟨ys, hys⟩ := mapM_except_total f xs (fun z hz => h z (List.mem_cons_of_mem x hz))
    exact ⟨y :: ys, by rw [mapM_except_cons, hy, hys]⟩

theorem mapM_except_pointwise {α β ε : Type} (f : α → Except ε β) :
    ∀ (xs : List α) (ys : List β), xs.mapM f = .ok ys →
      ys.length = xs.length ∧ ∀ (i : Nat) (x : α), xs[i]? = some x → ∃ y, ys[i]? = some y ∧ f x = .ok y
  | [], ys, h => by
    have : ys = [] := by
      have h2 : (Except.ok [] : Except ε (List β)) = .ok ys := h
      cases h2; rfl
    subst this
    exact ⟨rfl, fun i x hx => by simp at hx⟩
  | x :: xs, ys, h => by
    rw [mapM_except_cons] at h
    cases hy : f x with
    | error e => rw [hy] at h; cases h
    | ok y =>
      rw [hy] at h
      cases hys : xs.mapM f with
      | error e => rw [hys] at h; cases h
      | ok ys2 =>
        rw [hys] at h
        cases h
        obtain ⟨hlen, hget⟩ := mapM_except_pointwise f xs ys2 hys
        refine ⟨by simp [hlen], fun i z hz => ?_⟩
        cases i with
        | zero =>
          simp at hz
          subst hz
          exact ⟨y, by simp, hy⟩
        | succ j =>
          simp at hz
          obtain ⟨w, hw, hfw⟩ := hget j z hz
          exact ⟨w, by simpa using hw, hfw⟩


/-! ## Source adapter -/

theorem extractItem_of_shape (item attributes question block child text : JsVal)
    (blocks children : List JsVal)
    (h1 : getProp item "attributes" = .ok attributes)
    (h2 : getProp attributes "Question" = .ok question)
    (h3 : getProp attributes "Answer" = .ok (.arr (block :: blocks)))
    (h4 : getProp block "children" = .ok (.arr (child :: children)))
    (h5 : getProp child "text" = .ok text) :
    extractItem item = .ok { question := question, answer := text } := by
  simp only [extractItem, h1, h2, h3, h4, h5, getIndex, bind, Except.bind, pure, Except.pure,
    List.get?, Option.getD]

theorem fetchData_of_rejection (net : NetOutcome) (e : JsError)
    (h : axiosGet net = .error e) : fetchData net = .arr [] := by
  simp [fetchData, h]

theorem sourceAdapter_of_rejection (net : NetOutcome) (e : JsError)
    (h : axiosGet net = .error e) : sourceAdapter net = .error .typeError := by
  unfold sourceAdapter
  rw [fetchData_of_rejection net e h]
  rfl

theorem sourceAdapter_without_data_array (status : Nat) (data : JsVal)
    (hstatus : 200 ≤ status ∧ status < 300)
    (hdata : ∀ items, getProp data "data" ≠ .ok (.arr items)) :
    sourceAdapter (.reply status data) = .error .typeError := by
  have hf : fetchData (.reply status data) = data := by simp [fetchData, axiosGet, hstatus]
  unfold sourceAdapter extractQuestionsAndAnswers
  rw [hf]
  cases hd : getProp data "data" with
  | error e =>
    cases data <;> simp [getProp] at hd
    all_goals subst hd; rfl
  | ok records =>
    cases records with
    | arr items => exact absurd hd (hdata items)
    | _ => rfl

/-- C1: when the upstream call fails (connection refused, or a 503 reply),
the function `fetchData` returns the empty array from its `catch`, and
`extractQuestionsAndAnswers` then throws a `TypeError` on it, because the
empty array has no `data` property to call `map` on: the source adapter yields
no empty sequence, `populateVectorStore` rejects, and so does the handler. -/
theorem sourceAdapter_throws_after_fetch_error :
    fetchData (.networkFailure "ECONNREFUSED") = .arr [] ∧
    sourceAdapter (.networkFailure "ECONNREFUSED") = .error .typeError ∧
    fetchData (.reply 503 .null) = .arr [] ∧
    sourceAdapter (.reply 503 .null) = .error .typeError ∧
    populateVectorStore sourceDownEnv = .error .typeError ∧
    (chatHandler sourceDownEnv sampleBody).result = .error .typeError :=
  ⟨rfl, rfl, rfl, rfl, rfl, rfl⟩

theorem getProp_of_not_nullish (v : JsVal) (key : String)
    (hnull : v ≠ .null) (hundef : v ≠ .undefined) : ∃ w, getProp v key = .ok w := by
  cases v with
  | undefined => exact absurd rfl hundef
  | null => exact absurd rfl hnull
  | bool b => exact ⟨_, rfl⟩
  | num text => exact ⟨_, rfl⟩
  | str t => exact ⟨_, rfl⟩
  | arr items => exact ⟨_, rfl⟩
  | obj fields => exact ⟨_, rfl⟩

/-- C4 (counterexample): the single record of `nullChildPayload` has
`attributes.Question` and a non-empty `attributes.Answer` whose first block has
the non-empty `children` list `[null]`; reading `text` on that `null` throws a
`TypeError`, so `extractQuestionsAndAnswers` returns no list. -/
theorem extractQuestionsAndAnswers_null_first_child_throws :
    extractQuestionsAndAnswers nullChildPayload = .error .typeError :=
  rfl

/-- C4 (amended): when `data.data` is a list of records, each with
`attributes.Question` and a non-empty `attributes.Answer` whose first block has
a non-empty `children` list whose first child is neither `null` nor
`undefined`, the function `extractQuestionsAndAnswers` returns a list of the
same length and order whose i-th entry has the i-th record's
`attributes.Question` as question and `attributes.Answer[0].children[0].text`
as answer; no later block and no later child takes part. -/
theorem extractQuestionsAndAnswers_first_block_first_child
    (data : JsVal) (items : List JsVal)
    (hdata : getProp data "data" = .ok (.arr items))
    (hshape : ∀ item ∈ items, ∃ attributes question block blocks child children,
      getProp item "attributes" = .ok attributes ∧
      getProp attributes "Question" = .ok question ∧
      getProp attributes "Answer" = .ok (.arr (block :: blocks)) ∧
      getProp block "children" = .ok (.arr (child :: children)) ∧
      child ≠ .null ∧ child ≠ .undefined) :
    ∃ entries, extractQuestionsAndAnswers data = .ok entries ∧
      entries.length = items.length ∧
      ∀ (i : Nat) (item : JsVal), items[i]? = some item →
        ∃ entry attributes block blocks child children,
          entries[i]? = some entry ∧
          getProp item "attributes" = .ok attributes ∧
          getProp attributes "Question" = .ok entry.question ∧
          getProp attributes "Answer" = .ok (.arr (block :: blocks)) ∧
          getProp block "children" = .ok (.arr (child :: children)) ∧
          getProp child "text" = .ok entry.answer := by
  have htotal : ∀ item ∈ items, ∃ entry, extractItem item = .ok entry := by
    intro item hitem
    obtain ⟨attributes, question, block, blocks, child, children, h1, h2, h3, h4, h5, h6⟩ :=
      hshape item hitem
    obtain ⟨text, h7⟩ := getProp_of_not_nullish child "text" h5 h6
    exact ⟨_, extractItem_of_shape item attributes question block child text blocks children
      h1 h2 h3 h4 h7⟩
  obtain ⟨entries, hentries⟩ := mapM_except_total extractItem items htotal
  obtain ⟨hlen, hget⟩ := mapM_except_pointwise extractItem items entries hentries
  refine ⟨entries, ?_, hlen, ?_⟩
  · simp only [extractQuestionsAndAnswers, hdata, mapReceiver, bind, Except.bind]
    exact hentries
  · intro i item hi
    obtain ⟨entry, hentry, hex⟩ := hget i item hi
    obtain ⟨attributes, question, block, blocks, child, children, h1, h2, h3, h4, h5, h6⟩ :=
      hshape item (List.getElem?_mem hi)
    obtain ⟨text, h7⟩ := getProp_of_not_nullish child "text" h5 h6
    have hex2 := extractItem_of_shape item attributes question block child text blocks children
      h1 h2 h3 h4 h7
    rw [hex] at hex2
    cases hex2
    exact ⟨_, attributes, block, blocks, child, children, hentry, h1, h2, h3, h4, h7⟩

/-- C4 (witness): the sample payload, whose single record has two blocks, the
first with two children. -/
theorem extractQuestionsAndAnswers_first_block_first_child_witness :
    ∃ entries, extractQuestionsAndAnswers samplePayload = .ok entries ∧
      entries.length = [sampleRecord].length ∧
      ∀ (i : Nat) (item : JsVal), [sampleRecord][i]? = some item →
        ∃ entry attributes block blocks child children,
          entries[i]? = some entry ∧
          getProp item "attributes" = .ok attributes ∧
          getProp attributes "Question" = .ok entry.question ∧
          getProp attributes "Answer" = .ok (.arr (block :: blocks)) ∧
          getProp block "children" = .ok (.arr (child :: children)) ∧
          getProp child "text" = .ok entry.answer :=
  extractQuestionsAndAnswers_first_block_first_child samplePayload [sampleRecord] rfl (by
    intro item hitem
    simp only [List.mem_singleton] at hitem
    subst hitem
    exact ⟨_, _, _, _, _, _, rfl, rfl, rfl, rfl, (fun h => by cases h), (fun h => by cases h)⟩)

/-! ## Chat endpoint -/

theorem formatHistoryEntry_user (m : JsVal) (content : String)
    (hrole : getProp m "role" = .ok (.str "user"))
    (hcontent : getProp m "content" = .ok (.str content)) :
    formatHistoryEntry m = .ok (.human (.str content)) := by
  simp [formatHistoryEntry, messageContent, hrole, hcontent, bind, Except.bind, pure,
    Except.pure]

theorem formatHistoryEntry_other (m : JsVal) (role content : String)
    (hrole : getProp m "role" = .ok (.str role)) (hne : role ≠ "user")
    (hcontent : getProp m "content" = .ok (.str content)) :
    formatHistoryEntry m = .ok (.ai (.str content)) := by
  simp [formatHistoryEntry, messageContent, hrole, hcontent, hne, bind, Except.bind, pure,
    Except.pure]

/-- C5: for a history whose entries each have a `role` that is "user" or
"assistant" and a string `content`, the conversion of the handler returns a
list of the same length and order; its i-th message carries the i-th entry's
content unchanged, as a human message when the role is "user" and as an AI
message when the role is "assistant". -/
theorem formattedChatHistory_typed (history : List JsVal)
    (htyped : ∀ m ∈ history, ∃ role content : String,
      getProp m "role" = .ok (.str role) ∧ (role = "user" ∨ role = "assistant") ∧
      getProp m "content" = .ok (.str content)) :
    ∃ messages, formattedChatHistory (.arr history) = .ok messages ∧
      messages.length = history.length ∧
      ∀ (i : Nat) (m : JsVal), history[i]? = some m →
        ∃ role content : String,
          getProp m "role" = .ok (.str role) ∧ getProp m "content" = .ok (.str content) ∧
          (role = "user" → messages[i]? = some (.human (.str content))) ∧
          (role = "assistant" → messages[i]? = some (.ai (.str content))) := by
  have htotal : ∀ m ∈ history, ∃ message, formatHistoryEntry m = .ok message := by
    intro m hm
    obtain ⟨role, content, hrole, _, hcontent⟩ := htyped m hm
    by_cases hu : role = "user"
    · subst hu
      exact ⟨_, formatHistoryEntry_user m content hrole hcontent⟩
    · exact ⟨_, formatHistoryEntry_other m role content hrole hu hcontent⟩
  obtain ⟨messages, hmessages⟩ := mapM_except_total formatHistoryEntry history htotal
  obtain ⟨hlen, hget⟩ := mapM_except_pointwise formatHistoryEntry history messages hmessages
  refine ⟨messages, ?_, hlen, ?_⟩
  · simp only [formattedChatHistory, mapReceiver, bind, Except.bind]
    exact hmessages
  · intro i m hi
    obtain ⟨message, hmessage, hfmt⟩ := hget i m hi
    obtain ⟨role, content, hrole, _, hcontent⟩ := htyped m (List.getElem?_mem hi)
    refine ⟨role, content, hrole, hcontent, ?_, ?_⟩
    · intro hu
      subst hu
      rw [formatHistoryEntry_user m content hrole hcontent] at hfmt
      cases hfmt
      exact hmessage
    · intro ha
      have hne : role ≠ "user" := by subst ha; decide
      rw [formatHistoryEntry_other m role content hrole hne hcontent] at hfmt
      cases hfmt
      exact hmessage

/-- C5 (witness): a two-turn history. -/
theorem formattedChatHistory_typed_witness :
    ∃ messages,
      formattedChatHistory (.arr [.obj [("role", .str "user"), ("content", .str "hi")],
        .obj [("role", .str "assistant"), ("content", .str "hello")]]) = .ok messages ∧
      messages.length =
        [JsVal.obj [("role", .str "user"), ("content", .str "hi")],
          .obj [("role", .str "assistant"), ("content", .str "hello")]].length ∧
      ∀ (i : Nat) (m : JsVal),
        [JsVal.obj [("role", .str "user"), ("content", .str "hi")],
          .obj [("role", .str "assistant"), ("content", .str "hello")]][i]? = some m →
        ∃ role content : String,
          getProp m "role" = .ok (.str role) ∧ getProp m "content" = .ok (.str content) ∧
          (role = "user" → messages[i]? = some (.human (.str content))) ∧
          (role = "assistant" → messages[i]? = some (.ai (.str content))) :=
  formattedChatHistory_typed _ (by
    intro m hm
    simp only [List.mem_cons, List.mem_singleton, List.not_mem_nil, or_false] at hm
    rcases hm with h | h
    · subst h; exact ⟨"user", "hi", rfl, Or.inl rfl, rfl⟩
    · subst h; exact ⟨"assistant", "hello", rfl, Or.inr rfl, rfl⟩)

/-- C2 (counterexample): for the empty body, where `chatHistory` and `input`
are absent, the handler throws a `TypeError` and sends no response; for a body
with an empty `chatHistory` and no `input`, it starts the pipeline with
`undefined` as input and answers with status 200. -/
theorem chatHandler_no_4xx_on_malformed_body :
    (chatHandler workingEnv (.obj [])).result = .error .typeError ∧
    (chatHandler workingEnv (.obj [("chatHistory", .arr [])])).pipelineCall
      = some ([], .undefined) ∧
    (chatHandler workingEnv (.obj [("chatHistory", .arr [])])).result
      = .ok { status := 200, body := .obj [("answer", .str "A headless CMS.")] } :=
  ⟨rfl, rfl, rfl⟩

/-- C2 (amended): the handler validates nothing and never answers with a 4xx.
When `chatHistory` is absent or not an array it throws a `TypeError` before
the pipeline is started and sends no response; when `chatHistory` is an
array that converts and `input` is absent, it starts the pipeline with
`undefined` as input and the outcome is the pipeline's; every response it
sends has status 200. -/
theorem chatHandler_unvalidated (env : Env) (body : JsVal) :
    ((∀ items, getProp body "chatHistory" ≠ .ok (.arr items)) →
      chatHandler env body = { pipelineCall := none, result := .error .typeError }) ∧
    (∀ items formatted, getProp body "chatHistory" = .ok (.arr items) →
      getProp body "input" = .ok .undefined →
      formattedChatHistory (.arr items) = .ok formatted →
      chatHandler env body =
        { pipelineCall := some (formatted, .undefined),
          result := (answerFromVectorStore env formatted .undefined).map
            (fun response => { status := 200, body := response }) }) ∧
    (∀ response, (chatHandler env body).result = .ok response → response.status = 200) := by
  refine ⟨?_, ?_, ?_⟩
  · intro h
    have hread : readBody body = .error .typeError := by
      unfold readBody
      cases hc : getProp body "chatHistory" with
      | error e =>
        cases body <;> simp [getProp] at hc
        all_goals subst hc; rfl
      | ok chatHistory =>
        have hin : ∃ input, getProp body "input" = .ok input := by
          cases body <;> simp [getProp] at hc ⊢
        obtain ⟨input, hin⟩ := hin
        cases chatHistory with
        | arr items => exact absurd hc (h items)
        | _ => simp [hin, formattedChatHistory, mapReceiver, bind, Except.bind]
    simp [chatHandler, hread]
  · intro items formatted hc hin hfmt
    have hread : readBody body = .ok (formatted, .undefined) := by
      simp [readBody, hc, hin, hfmt, bind, Except.bind, pure, Except.pure]
    simp [chatHandler, hread]
  · intro response h
    unfold chatHandler at h
    cases hread : readBody body with
    | error e => rw [hread] at h; cases h
    | ok pair =>
      obtain ⟨formatted, input⟩ := pair
      rw [hread] at h
      cases hans : answerFromVectorStore env formatted input with
      | error e => simp [hans, Except.map] at h
      | ok r =>
        simp [hans, Except.map] at h
        rw [← h]

/-- C2 (witness): the amended statement at a body whose `chatHistory` is a
string, and at a body with a one-turn history and no `input`. -/
theorem chatHandler_unvalidated_witness :
    chatHandler workingEnv (.obj [("chatHistory", .str "hi"), ("input", .str "hi")])
      = { pipelineCall := none, result := .error .typeError } ∧
    chatHandler completionDownEnv
        (.obj [("chatHistory", .arr [.obj [("role", .str "user"), ("content", .str "hi")]])])
      = { pipelineCall := some ([.human (.str "hi")], .undefined),
          result := (answerFromVectorStore completionDownEnv [.human (.str "hi")] .undefined).map
            (fun response => { status := 200, body := response }) } ∧
    (∃ response, (chatHandler workingEnv sampleBody).result = .ok response ∧
      response.status = 200) :=
  ⟨(chatHandler_unvalidated workingEnv _).1 (by intro items h; cases h),
   (chatHandler_unvalidated completionDownEnv _).2.1 _ _ rfl rfl rfl,
   ⟨{ status := 200, body := .obj [("answer", .str "A headless CMS.")] }, rfl,
    (chatHandler_unvalidated workingEnv sampleBody).2.2 _ rfl⟩⟩

/-- C3 (counterexample): with a well-formed body and the embedding service
failing, the handler has started the pipeline and its promise rejects with the
service's error: the handler sends no response, so no JSON error body either. -/
theorem chatHandler_embedding_failure_escapes :
    (chatHandler embeddingDownEnv sampleBody).result
      = .error (.failure "embedding service unavailable") ∧
    (chatHandler embeddingDownEnv sampleBody).pipelineCall
      = some ([.human (.str "What is Strapi?")], .str "What is Strapi?") :=
  ⟨rfl, rfl⟩

/-- C3 (amended): for a well-formed request, when the splitter, the index
build or the chain invocation fails with an error, that error leaves
`answerFromVectorStore` and the handler unchanged: the handler's promise
rejects with it and the handler sends no response. -/
theorem chatHandler_propagates_stage_failure (env : Env) (body chatHistory input : JsVal)
    (formatted : List Message) (entries : List FaqEntry) (e : JsError)
    (hhist : getProp body "chatHistory" = .ok chatHistory)
    (hinput : getProp body "input" = .ok input)
    (hfmt : formattedChatHistory chatHistory = .ok formatted)
    (hsrc : sourceAdapter env.upstream = .ok entries)
    (hfail :
      env.splitDocuments splitter (docs entries) = .error e ∨
      (∃ splitDocs, env.splitDocuments splitter (docs entries) = .ok splitDocs ∧
        env.fromDocuments splitDocs = .error e) ∨
      (∃ splitDocs vectorstore, env.splitDocuments splitter (docs entries) = .ok splitDocs ∧
        env.fromDocuments splitDocs = .ok vectorstore ∧
        env.invoke { vectorstore := vectorstore, k := 4, rephrasePrompt := retrieverPrompt,
                     combinePrompt := prompt } formatted input = .error e)) :
    answerFromVectorStore env formatted input = .error e ∧
    chatHandler env body = { pipelineCall := some (formatted, input), result := .error e } := by
  have hread : readBody body = .ok (formatted, input) := by
    simp [readBody, hhist, hinput, hfmt, bind, Except.bind, pure, Except.pure]
  have hans : answerFromVectorStore env formatted input = .error e := by
    rcases hfail with h | ⟨splitDocs, h1, h2⟩ | ⟨splitDocs, vectorstore, h1, h2, h3⟩
    · simp [answerFromVectorStore, populateVectorStore, hsrc, h, bind, Except.bind]
    · simp [answerFromVectorStore, populateVectorStore, hsrc, h1, h2, bind, Except.bind]
    · simp [answerFromVectorStore, populateVectorStore, hsrc, h1, h2, h3, bind, Except.bind]
  refine ⟨hans, ?_⟩
  simp [chatHandler, hread, hans, Except.map]

/-- C3 (witness): the amended statement with the completion service failing. -/
theorem chatHandler_propagates_stage_failure_witness :
    answerFromVectorStore completionDownEnv [.human (.str "What is Strapi?")]
        (.str "What is Strapi?") = .error (.failure "completion service unavailable") ∧
    chatHandler completionDownEnv sampleBody =
      { pipelineCall := some ([.human (.str "What is Strapi?")], .str "What is Strapi?"),
        result := .error (.failure "completion service unavailable") } :=
  chatHandler_propagates_stage_failure completionDownEnv sampleBody
    (.arr [.obj [("role", .str "user"), ("content", .str "What is Strapi?")]])
    (.str "What is Strapi?") [.human (.str "What is Strapi?")]
    [{ question := .str "What is Strapi?", answer := .str "A headless CMS." }]
    (.failure "completion service unavailable") rfl rfl rfl rfl
    (Or.inr (Or.inr ⟨_, _, rfl, rfl, rfl⟩))

/-- C6: for a request whose history converts and whose pipeline succeeds, the
handler answers with status 200 and with the object the chain's `invoke`
returned on the converted history and the request's input, unchanged. -/
theorem chatHandler_success_passes_chain_result (env : Env) (body chatHistory input : JsVal)
    (formatted : List Message) (vectorstore : VectorStore) (response : JsVal)
    (hhist : getProp body "chatHistory" = .ok chatHistory)
    (hinput : getProp body "input" = .ok input)
    (hfmt : formattedChatHistory chatHistory = .ok formatted)
    (hstore : populateVectorStore env = .ok vectorstore)
    (hchain : env.invoke { vectorstore := vectorstore, k := 4, rephrasePrompt := retrieverPrompt,
                           combinePrompt := prompt } formatted input = .ok response) :
    chatHandler env body =
      { pipelineCall := some (formatted, input),
        result := .ok { status := 200, body := response } } := by
  have hread : readBody body = .ok (formatted, input) := by
    simp [readBody, hhist, hinput, hfmt, bind, Except.bind, pure, Except.pure]
  have hans : answerFromVectorStore env formatted input = .ok response := by
    simp [answerFromVectorStore, hstore, hchain, bind, Except.bind]
  simp [chatHandler, hread, hans, Except.map]

/-- C6 (witness): the sample request against collaborators that all succeed. -/
theorem chatHandler_success_passes_chain_result_witness :
    chatHandler workingEnv sampleBody =
      { pipelineCall := some ([.human (.str "What is Strapi?")], .str "What is Strapi?"),
        result := .ok { status := 200, body := .obj [("answer", .str "A headless CMS.")] } } :=
  chatHandler_success_passes_chain_result workingEnv sampleBody
    (.arr [.obj [("role", .str "user"), ("content", .str "What is Strapi?")]])
    (.str "What is Strapi?") [.human (.str "What is Strapi?")]
    { documents := [{ pageContent := "What is Strapi?\nA headless CMS.",
                      metadata := .obj [("question", .str "What is Strapi?")] }] }
    (.obj [("answer", .str "A headless CMS.")]) rfl rfl rfl rfl rfl

/-! ## Corpus documents -/

/-- C7: once the source adapter has yielded the entries, `populateVectorStore`
is the splitter with chunk size 100 and overlap 20 applied to `docs entries`,
followed by the index build; `docs entries` has one document per entry, in
order, whose `metadata.question` is the entry's question and whose text, for an
entry with string question and answer, is question, line feed, answer. -/
theorem populateVectorStore_documents (env : Env) (entries : List FaqEntry)
    (hsrc : sourceAdapter env.upstream = .ok entries) :
    populateVectorStore env =
      (env.splitDocuments { chunkSize := 100, chunkOverlap := 20 } (docs entries)
        >>= env.fromDocuments) ∧
    (docs entries).length = entries.length ∧
    ∀ (i : Nat) (entry : FaqEntry), entries[i]? = some entry →
      ∃ document, (docs entries)[i]? = some document ∧
        getProp document.metadata "question" = .ok entry.question ∧
        ∀ question answer : String, entry.question = .str question →
          entry.answer = .str answer →
          document.pageContent = question ++ "\n" ++ answer := by
  refine ⟨?_, by simp [docs], ?_⟩
  · simp [populateVectorStore, hsrc, splitter, bind, Except.bind]
  · intro i entry hi
    refine ⟨entryDocument entry, by simp [docs, hi], ?_, ?_⟩
    · simp [entryDocument, getProp, lookupField]
    · intro question answer hq ha
      simp [entryDocument, hq, ha, JsVal.toJsString]

/-- C7 (witness): the entries of the sample payload. -/
theorem populateVectorStore_documents_witness :
    populateVectorStore workingEnv =
      (workingEnv.splitDocuments { chunkSize := 100, chunkOverlap := 20 }
        (docs [{ question := .str "What is Strapi?", answer := .str "A headless CMS." }])
        >>= workingEnv.fromDocuments) ∧
    (docs [{ question := .str "What is Strapi?", answer := .str "A headless CMS." }]).length
      = [({ question := .str "What is Strapi?", answer := .str "A headless CMS." } : FaqEntry)].length ∧
    ∀ (i : Nat) (entry : FaqEntry),
      [({ question := .str "What is Strapi?", answer := .str "A headless CMS." } : FaqEntry)][i]?
        = some entry →
      ∃ document,
        (docs [{ question := .str "What is Strapi?", answer := .str "A headless CMS." }])[i]?
          = some document ∧
        getProp document.metadata "question" = .ok entry.question ∧
        ∀ question answer : String, entry.question = .str question →
          entry.answer = .str answer →
          document.pageContent = question ++ "\n" ++ answer :=
  populateVectorStore_documents workingEnv
    [{ question := .str "What is Strapi?", answer := .str "A headless CMS." }] rfl

/-! ## Answer prompt -/

set_option maxRecDepth 200000 in
theorem systemTemplate_halves :
    systemTemplate = systemTemplateHead ++ "\x7bcontext\x7d" ++ systemTemplateTail := by
  decide

set_option maxRecDepth 200000 in
theorem parseFString_systemTemplate :
    parseFString systemTemplate =
      .ok [.literal systemTemplateHead, .variable "context", .literal systemTemplateTail] := by
  rfl

theorem parseFString_input :
    parseFString "\x7binput\x7d" = .ok [.variable "input"] := by
  rfl

/-- C8: for a converted history `h`, an input `i` and a context `c`, the answer
prompt yields one system message, the fixed template with its `context`
variable replaced by `c`, then the messages of `h` in order, then one user
message with content `i`. -/
theorem answerPromptMessages_shape (h : List Message) (i c : String) :
    systemTemplate = systemTemplateHead ++ "\x7bcontext\x7d" ++ systemTemplateTail ∧
    answerPromptMessages h (.str i) (.str c) =
      .ok ([.system (.str (systemTemplateHead ++ c ++ systemTemplateTail))] ++ h
            ++ [.human (.str i)]) := by
  constructor
  · exact systemTemplate_halves
  · simp [answerPromptMessages, prompt, formatMessages, formatPart, renderTemplate,
      parseFString_systemTemplate, parseFString_input, interpolateFString, List.lookup,
      JsVal.toJsString, bind, Except.bind, Except.map, String.append_assoc]

/-! ## Chat widget -/

/-- C9: in a state whose `userInput` is not blank, `handleSendMessage` posts
exactly one request, whose `chatHistory` is the prior history followed by the
user message with the untrimmed input and whose `input` is that input; and in
any state, every request it posts has a non-empty `chatHistory` whose last
entry's content is the request's `input`. -/
theorem handleSendMessage_request (s : WidgetState) (hinput : jsTrim s.userInput ≠ "") :
    (handleSendMessage s).2 =
      [{ chatHistory := s.chatHistory ++ [{ role := "user", content := .str s.userInput }],
         input := s.userInput }] ∧
    ∀ (t : WidgetState) (r : ChatRequest), r ∈ (handleSendMessage t).2 →
      r.chatHistory ≠ [] ∧
      ∃ last, r.chatHistory.getLast? = some last ∧ last.role = "user" ∧
        last.content = .str r.input := by
  constructor
  · simp [handleSendMessage, hinput]
  · intro t r hr
    unfold handleSendMessage at hr
    by_cases hb : jsTrim t.userInput ≠ ""
    · rw [if_pos hb] at hr
      simp only [List.mem_singleton] at hr
      subst hr
      simp
    · simp [hb] at hr

/-- C9 (witness): a send from the state reached after a failed send. -/
theorem handleSendMessage_request_witness :
    (handleSendMessage stateAfterFailure).2 =
      [{ chatHistory := stateAfterFailure.chatHistory ++
           [{ role := "user", content := .str stateAfterFailure.userInput }],
         input := stateAfterFailure.userInput }] ∧
    ∀ (t : WidgetState) (r : ChatRequest), r ∈ (handleSendMessage t).2 →
      r.chatHistory ≠ [] ∧
      ∃ last, r.chatHistory.getLast? = some last ∧ last.role = "user" ∧
        last.content = .str r.input :=
  handleSendMessage_request stateAfterFailure (by decide)

theorem step_keeps_error (s : WidgetState) (e : WidgetEvent) (h : s.error ≠ none) :
    (step s e).error ≠ none := by
  cases e with
  | userInput value => exact h
  | toggle => exact h
  | send =>
    show (handleSendMessage s).1.error ≠ none
    unfold handleSendMessage
    split
    · exact h
    · exact h
  | settle index reply =>
    show (match s.inFlight.get? index with
      | none => s
      | some updatedChatHistory =>
        sendSettled { s with inFlight := s.inFlight.eraseIdx index } updatedChatHistory reply).error
        ≠ none
    cases s.inFlight.get? index with
    | none => exact h
    | some updatedChatHistory =>
      show (sendSettled _ updatedChatHistory reply).error ≠ none
      unfold sendSettled
      split
      · exact h
      · simp

/-- C10: once `error` is set it stays set: from a state with a non-null
`error`, every sequence of widget events (typing, toggling, sends, and replies
that succeed or fail) ends in a state with a non-null `error`. -/
theorem error_is_never_cleared (s : WidgetState) (events : List WidgetEvent)
    (h : s.error ≠ none) : (run s events).error ≠ none := by
  induction events generalizing s with
  | nil => exact h
  | cons e rest ih => exact ih (step s e) (step_keeps_error s e h)

/-- C10 (witness): after a failed send, a send that succeeds leaves `error` set. -/
theorem error_is_never_cleared_witness :
    stateAfterFailure.error ≠ none ∧
    (run stateAfterFailure
      [.send, .toggle, .settle 0 (.ok (.obj [("answer", .str "A headless CMS.")]))]).error
      ≠ none :=
  ⟨by decide, error_is_never_cleared stateAfterFailure _ (by decide)⟩

end FaqBot
